import Mathlib

/-!
Shallow embedding of `psycopg3/adapt.py` (the adaptation system):
registries of encoders (adapters) and decoders (typecasters), scope
resolution, and the per-query `Transformer`.

Python objects are modelled as follows.

* Mutable dicts become association lists with overwrite-on-insert
  (`insertKey`) and first-hit lookup (`lookupKey`), matching Python
  dict semantics (one binding per key, last registration wins).
* The module-global registries `Adapter.globals` / `TypeCaster.globals`
  are threaded as explicit parameters `g`.
* Object identity (Python `is`) of a `PGresult` is modelled by a
  numeric identity token `rid`: distinct live objects carry distinct
  tokens.
* Text decoding by a codec is an external collaborator; a decoded
  string is represented abstractly but executably as the pair of the
  codec used and the raw bytes (`PyVal.str`).
* A stateful conversion class (an `Adapter`/`TypeCaster` subclass) is
  modelled as its constructor behaviour: a function from the
  constructor arguments to the bound `adapt`/`cast` method.  The
  context argument a constructor receives is modelled by `CtxRef`,
  the observable projection of a connection/cursor (identity and
  codec), which is what the classes in this module consult.
* Constructor invocations are side effects in Python (object
  allocation); the `Transformer` carries a ghost event log `events`
  recording each stateful-conversion construction, so that
  "constructor invoked at most once" style properties are statable.
  The log is observation only: no operation reads it.
-/

namespace Psycopg3

/-- Wire format tag, `pq.Format`: TEXT = 0, BINARY = 1. -/
inductive Format where
  | text
  | binary
deriving DecidableEq, Repr

/-- Python `Format(fmt).name`. -/
def Format.name : Format → String
  | .text => "TEXT"
  | .binary => "BINARY"

/-- Raw wire bytes. -/
abbrev Bytes := List Nat

/-- A text codec (external collaborator); `utf8` is the default. -/
inductive Codec where
  | utf8
  | named (s : String)
deriving DecidableEq, Repr

/-- Runtime type of a native Python value. -/
inductive PyType where
  | noneType
  | intType
  | strType
  | bytesType
deriving DecidableEq, Repr

/-- Display name of a runtime type, used in error messages. -/
def typeName : PyType → String
  | .noneType => "NoneType"
  | .intType => "int"
  | .strType => "str"
  | .bytesType => "bytes"

/-- A native Python value.  A decoded text string is represented by
the codec that decoded it together with the raw bytes. -/
inductive PyVal where
  | none
  | int (n : Int)
  | str (codec : Codec) (data : Bytes)
  | bytes (b : Bytes)
deriving DecidableEq, Repr

/-- Python `type(obj)`. -/
def PyVal.type : PyVal → PyType
  | .none => .noneType
  | .int _ => .intType
  | .str _ _ => .strType
  | .bytes _ => .bytesType

/-- Result of an adapter: `Optional[bytes]` or `(Optional[bytes], oid)`. -/
inductive MaybeOid where
  | plain (b : Option Bytes)
  | tagged (b : Option Bytes) (oid : Nat)
deriving DecidableEq, Repr

/-- `builtins["text"].oid`: the generic text type identifier. -/
def TEXT_OID : Nat := 25

/-- The reserved sentinel wire-type identifier for unknown types. -/
def INVALID_OID : Nat := 0

/-- The bytes part of an adapter result, as destructured by
`adapt_sequence` (`data[0]` for a tuple, the value itself otherwise). -/
def MaybeOid.outData : MaybeOid → Option Bytes
  | .plain b => b
  | .tagged b _ => b

/-- The oid part of an adapter result, as destructured by
`adapt_sequence` (`data[1]` for a tuple, `TEXT_OID` otherwise). -/
def MaybeOid.outOid : MaybeOid → Nat
  | .plain _ => TEXT_OID
  | .tagged _ oid => oid

/-- Observable data of a connection: its identity and text codec. -/
structure ConnInfo where
  cid : Nat
  codec : Codec
deriving DecidableEq, Repr

/-- The context argument received by a stateful-conversion
constructor: nothing, a connection, or a cursor (with its owning
connection), projected to observable data. -/
inductive CtxRef where
  | none
  | conn (info : ConnInfo)
  | cursor (curId : Nat) (info : ConnInfo)
deriving DecidableEq, Repr

/-- The connection a constructor context resolves to, as the base
class `__init__` computes it via `_solve_context`. -/
def CtxRef.solvedConn : CtxRef → Option ConnInfo
  | .none => Option.none
  | .conn i => some i
  | .cursor _ i => some i

/-- A stateful encoder class: constructor `(src, context)` returning
the bound `adapt` method. -/
structure AdapterClass where
  construct : PyType → CtxRef → (PyVal → MaybeOid)

/-- A stateful decoder class: constructor `(oid, context)` returning
the bound `cast` method. -/
structure CasterClass where
  construct : Nat → CtxRef → (Bytes → PyVal)

/-- A registered encoder: a plain function or an `Adapter` subclass. -/
inductive AdapterType where
  | func (f : PyVal → MaybeOid)
  | cls (c : AdapterClass)

/-- A registered decoder: a plain function or a `TypeCaster` subclass. -/
inductive TypeCasterType where
  | func (f : Bytes → PyVal)
  | cls (c : CasterClass)

/-- First-hit association-list lookup (`key in d` / `d[key]`). -/
def lookupKey {α β : Type} [DecidableEq α] : List (α × β) → α → Option β
  | [], _ => Option.none
  | (k, v) :: rest, key => if k = key then some v else lookupKey rest key

/-- Overwriting association-list insert (`d[key] = v`). -/
def insertKey {α β : Type} [DecidableEq α] : List (α × β) → α → β → List (α × β)
  | [], key, v => [(key, v)]
  | (k, w) :: rest, key, v =>
    if k = key then (key, v) :: rest else (k, w) :: insertKey rest key v

/-- Encoder registry: `(type, format)` keys. -/
abbrev AdaptersMap := List ((PyType × Format) × AdapterType)

/-- Decoder registry: `(oid, format)` keys. -/
abbrev TypeCastersMap := List ((Nat × Format) × TypeCasterType)

/-- A connection: observable data plus its own two registries. -/
structure BaseConnection where
  info : ConnInfo
  adapters : AdaptersMap
  casters : TypeCastersMap

/-- A cursor: its owning connection plus its own two registries. -/
structure BaseCursor where
  curId : Nat
  conn : BaseConnection
  adapters : AdaptersMap
  casters : TypeCastersMap

/-- A context argument: none, a connection, a cursor, or (since the
call sites are dynamically typed) anything else, carried as a
description for the error message. -/
inductive AdaptContext where
  | none
  | conn (c : BaseConnection)
  | cursor (c : BaseCursor)
  | other (descr : String)

/-- Resolve a context to `(connection, cursor)`; anything that is not
none, a connection or a cursor is a `TypeError`. -/
def _solve_context :
    AdaptContext → Except String (Option BaseConnection × Option BaseCursor)
  | .none => .ok (Option.none, Option.none)
  | .conn c => .ok (some c, Option.none)
  | .cursor cur => .ok (some cur.conn, some cur)
  | .other d =>
    .error ("the context should be a connection or cursor, got " ++ d)

/-- The `type_or_oid` argument of a registration call, dynamically
typed: a runtime class, an integer, or anything else. -/
inductive RegKeyArg where
  | type (t : PyType)
  | int (n : Nat)
  | other (descr : String)
deriving DecidableEq, Repr

/-- How a key argument prints in an error message. -/
def RegKeyArg.descr : RegKeyArg → String
  | .type t => typeName t
  | .int n => toString n
  | .other d => d

/-- The `adapter` argument of `Adapter.register`: a callable, an
`Adapter` subclass, or a non-callable object (rejected). -/
inductive AdapterArg where
  | func (f : PyVal → MaybeOid)
  | cls (c : AdapterClass)
  | nonCallable (descr : String)

/-- The `caster` argument of `TypeCaster.register`. -/
inductive CasterArg where
  | func (f : Bytes → PyVal)
  | cls (c : CasterClass)
  | nonCallable (descr : String)

/-- Description of the conversion argument for error messages. -/
def AdapterArg.descr : AdapterArg → String
  | .func _ => "a function"
  | .cls _ => "a class"
  | .nonCallable d => d

/-- Description of the conversion argument for error messages. -/
def CasterArg.descr : CasterArg → String
  | .func _ => "a function"
  | .cls _ => "a class"
  | .nonCallable d => d

/-- Store an encoder registration into the context selected by
`context`, after updating that context with the new entry.  Returns
(outcome, globals after, context after); on error both state
components are the inputs, since the source raises before writing. -/
def Adapter.register (g : AdaptersMap) (src : RegKeyArg) (adapter : AdapterArg)
    (context : AdaptContext) (format : Format) :
    Except String AdapterType × AdaptersMap × AdaptContext :=
  match src with
  | .type srcT =>
    match context with
    | .other d =>
      (.error ("the context should be a connection or cursor, got " ++ d),
       g, context)
    | _ =>
      match adapter with
      | .nonCallable d =>
        (.error ("adapters should be callable or Adapter subclasses, got "
                 ++ d ++ " instead"), g, context)
      | .func f =>
        match context with
        | .none => (.ok (.func f), insertKey g (srcT, format) (.func f), .none)
        | .conn c =>
          (.ok (.func f), g,
           .conn { c with adapters := insertKey c.adapters (srcT, format) (.func f) })
        | .cursor cur =>
          (.ok (.func f), g,
           .cursor { cur with adapters := insertKey cur.adapters (srcT, format) (.func f) })
        | .other d => (.error d, g, context)
      | .cls cl =>
        match context with
        | .none => (.ok (.cls cl), insertKey g (srcT, format) (.cls cl), .none)
        | .conn c =>
          (.ok (.cls cl), g,
           .conn { c with adapters := insertKey c.adapters (srcT, format) (.cls cl) })
        | .cursor cur =>
          (.ok (.cls cl), g,
           .cursor { cur with adapters := insertKey cur.adapters (srcT, format) (.cls cl) })
        | .other d => (.error d, g, context)
  | k =>
    (.error ("adapters should be registered on classes, got "
             ++ k.descr ++ " instead"), g, context)

/-- `Adapter.register_binary`: `register` with the binary format. -/
def Adapter.register_binary (g : AdaptersMap) (src : RegKeyArg)
    (adapter : AdapterArg) (context : AdaptContext) :
    Except String AdapterType × AdaptersMap × AdaptContext :=
  Adapter.register g src adapter context Format.binary

/-- Store a decoder registration, mirroring `TypeCaster.register`. -/
def TypeCaster.register (g : TypeCastersMap) (oid : RegKeyArg)
    (caster : CasterArg) (context : AdaptContext) (format : Format) :
    Except String TypeCasterType × TypeCastersMap × AdaptContext :=
  match oid with
  | .int n =>
    match context with
    | .other d =>
      (.error ("the context should be a connection or cursor, got " ++ d),
       g, context)
    | _ =>
      match caster with
      | .nonCallable d =>
        (.error ("adapters should be callable or TypeCaster subclasses, got "
                 ++ d ++ " instead"), g, context)
      | .func f =>
        match context with
        | .none => (.ok (.func f), insertKey g (n, format) (.func f), .none)
        | .conn c =>
          (.ok (.func f), g,
           .conn { c with casters := insertKey c.casters (n, format) (.func f) })
        | .cursor cur =>
          (.ok (.func f), g,
           .cursor { cur with casters := insertKey cur.casters (n, format) (.func f) })
        | .other d => (.error d, g, context)
      | .cls cl =>
        match context with
        | .none => (.ok (.cls cl), insertKey g (n, format) (.cls cl), .none)
        | .conn c =>
          (.ok (.cls cl), g,
           .conn { c with casters := insertKey c.casters (n, format) (.cls cl) })
        | .cursor cur =>
          (.ok (.cls cl), g,
           .cursor { cur with casters := insertKey cur.casters (n, format) (.cls cl) })
        | .other d => (.error d, g, context)
  | k =>
    (.error ("typecasters should be registered on oid, got "
             ++ k.descr ++ " instead"), g, context)

/-- `TypeCaster.register_binary`: `register` with the binary format. -/
def TypeCaster.register_binary (g : TypeCastersMap) (oid : RegKeyArg)
    (caster : CasterArg) (context : AdaptContext) :
    Except String TypeCasterType × TypeCastersMap × AdaptContext :=
  TypeCaster.register g oid caster context Format.binary

/-- The `UnknownCaster` class: its constructor picks the decode
function once (the connection codec when bound, UTF-8 otherwise) and
`cast` returns the decoded string. -/
def UnknownCaster : CasterClass where
  construct := fun _oid ctx =>
    let dec : Codec :=
      match ctx.solvedConn with
      | some i => i.codec
      | Option.none => Codec.utf8
    fun data => PyVal.str dec data

/-- The binary fallback: return the raw bytes unchanged. -/
def cast_unknown : Bytes → PyVal := fun data => PyVal.bytes data

/-- The global decoder registry after module import: the two
decorator registrations of the unknown-type fallbacks under
`INVALID_OID` (text class, then binary function). -/
def initialCasterGlobals : TypeCastersMap :=
  (TypeCaster.register
    (TypeCaster.register [] (RegKeyArg.int INVALID_OID)
      (CasterArg.cls UnknownCaster) AdaptContext.none Format.text).2.1
    (RegKeyArg.int INVALID_OID)
    (CasterArg.func cast_unknown) AdaptContext.none Format.binary).2.1

/-- One column of a result: wire-type oid and format. -/
structure PGColumn where
  ftype : Nat
  fformat : Format
deriving DecidableEq, Repr

/-- A query result (external collaborator): an identity token `rid`
modelling Python object identity, the column descriptions, and the
rows of raw values (`Option.none` is SQL NULL). -/
structure PGresult where
  rid : Nat
  cols : List PGColumn
  rows : List (List (Option Bytes))
deriving DecidableEq, Repr

/-- `result.nfields`. -/
def PGresult.nfields (r : PGresult) : Nat := r.cols.length

/-- `result.get_value(n, col)`: raw bytes of row `n`, column `col`,
or absent for SQL NULL. -/
def PGresult.get_value (r : PGresult) (n col : Nat) : Option Bytes :=
  ((r.rows.get? n).bind fun row => row.get? col).join

/-- A construction event in the ghost log: which stateful conversion
was instantiated, under which key, with which context argument. -/
inductive ConstructEvent where
  | adapter (src : PyType) (fmt : Format) (ctx : CtxRef)
  | caster (oid : Nat) (fmt : Format) (ctx : CtxRef)
deriving DecidableEq, Repr

/-- The per-query `Transformer`: solved context, the two
resolved-function caches, the bound result, the row decoders, and the
ghost log of constructor invocations. -/
structure Transformer where
  connection : Option BaseConnection
  cursor : Option BaseCursor
  adapt_funcs : List ((PyType × Format) × (PyVal → MaybeOid))
  cast_funcs : List ((Nat × Format) × (Bytes → PyVal))
  result : Option PGresult
  row_casters : List (Bytes → PyVal)
  events : List ConstructEvent

/-- `Transformer.__init__`: solve the context once, start with empty
caches, no bound result and no row decoders. -/
def Transformer.init (context : AdaptContext) : Except String Transformer :=
  (_solve_context context).map fun p =>
    { connection := p.1, cursor := p.2, adapt_funcs := [], cast_funcs := [],
      result := Option.none, row_casters := [], events := [] }

/-- The context argument passed to a stateful-conversion constructor:
`self.connection` (or none), projected to observable data. -/
def ctxRefOfConn : Option BaseConnection → CtxRef
  | Option.none => CtxRef.none
  | some c => CtxRef.conn c.info

/-- `Transformer.lookup_adapter`: cursor registry, then connection
registry, then globals; first match wins, otherwise a
`ProgrammingError` naming the type and the format. -/
def Transformer.lookup_adapter (g : AdaptersMap) (t : Transformer)
    (src : PyType) (fmt : Format) : Except String AdapterType :=
  match t.cursor.bind fun cur => lookupKey cur.adapters (src, fmt) with
  | some a => .ok a
  | Option.none =>
  match t.connection.bind fun conn => lookupKey conn.adapters (src, fmt) with
  | some a => .ok a
  | Option.none =>
  match lookupKey g (src, fmt) with
  | some a => .ok a
  | Option.none =>
    .error ("cannot adapt type " ++ typeName src ++ " to format " ++ fmt.name)

/-- `Transformer.get_adapt_function`: consult the cache, else resolve;
a class is instantiated with `(src, self.connection)` and its bound
method returned.  Note the source never writes the cache; the only
state change is the ghost construction event. -/
def Transformer.get_adapt_function (g : AdaptersMap) (t : Transformer)
    (src : PyType) (fmt : Format) :
    Except String ((PyVal → MaybeOid) × Transformer) :=
  match lookupKey t.adapt_funcs (src, fmt) with
  | some f => .ok (f, t)
  | Option.none =>
    (t.lookup_adapter g src fmt).map fun
      | .func f => (f, t)
      | .cls c =>
        (c.construct src (ctxRefOfConn t.connection),
         { t with events :=
             t.events ++ [.adapter src fmt (ctxRefOfConn t.connection)] })

/-- `Transformer.adapt`: None encodes to `(None, TEXT_OID)` directly;
otherwise resolve by the runtime type and apply. -/
def Transformer.adapt (g : AdaptersMap) (t : Transformer) (obj : PyVal)
    (fmt : Format) : Except String (MaybeOid × Transformer) :=
  match obj with
  | .none => .ok (.tagged Option.none TEXT_OID, t)
  | obj =>
    (t.get_adapt_function g obj.type fmt).map fun p => (p.1 obj, p.2)

/-- The loop of `adapt_sequence` over the zipped pairs, accumulating
the data and oid lists. -/
def adaptSeqGo (g : AdaptersMap) : Transformer → List (PyVal × Format) →
    List (Option Bytes) → List Nat →
    Except String ((List (Option Bytes) × List Nat) × Transformer)
  | t, [], out, types => .ok ((out, types), t)
  | t, (var, fmt) :: rest, out, types =>
    (t.adapt g var fmt).bind fun p =>
      adaptSeqGo g p.2 rest (out ++ [p.1.outData]) (types ++ [p.1.outOid])

/-- `Transformer.adapt_sequence`: encode each value against its
paired format (`zip` truncates to the shorter sequence). -/
def Transformer.adapt_sequence (g : AdaptersMap) (t : Transformer)
    (objs : List PyVal) (fmts : List Format) :
    Except String ((List (Option Bytes) × List Nat) × Transformer) :=
  adaptSeqGo g t (objs.zip fmts) [] []

/-- `Transformer.lookup_caster`: cursor, connection, globals; on a
full miss fall back to the global entry under `INVALID_OID` (a
missing fallback entry is a `KeyError`). -/
def Transformer.lookup_caster (g : TypeCastersMap) (t : Transformer)
    (oid : Nat) (fmt : Format) : Except String TypeCasterType :=
  match t.cursor.bind fun cur => lookupKey cur.casters (oid, fmt) with
  | some c => .ok c
  | Option.none =>
  match t.connection.bind fun conn => lookupKey conn.casters (oid, fmt) with
  | some c => .ok c
  | Option.none =>
  match lookupKey g (oid, fmt) with
  | some c => .ok c
  | Option.none =>
  match lookupKey g (INVALID_OID, fmt) with
  | some c => .ok c
  | Option.none => .error "KeyError"

/-- `Transformer.get_cast_function`: consult the cache, else resolve;
a class is instantiated with `(oid, self.connection)`.  As with the
adapt side, the source never writes the cache. -/
def Transformer.get_cast_function (g : TypeCastersMap) (t : Transformer)
    (oid : Nat) (fmt : Format) :
    Except String ((Bytes → PyVal) × Transformer) :=
  match lookupKey t.cast_funcs (oid, fmt) with
  | some f => .ok (f, t)
  | Option.none =>
    (t.lookup_caster g oid fmt).map fun
      | .func f => (f, t)
      | .cls c =>
        (c.construct oid (ctxRefOfConn t.connection),
         { t with events :=
             t.events ++ [.caster oid fmt (ctxRefOfConn t.connection)] })

/-- The loop of the `result` setter: one resolved decoder per column,
in column order. -/
def rowCastersGo (g : TypeCastersMap) : Transformer → List PGColumn →
    List (Bytes → PyVal) →
    Except String (List (Bytes → PyVal) × Transformer)
  | t, [], acc => .ok (acc, t)
  | t, c :: rest, acc =>
    (t.get_cast_function g c.ftype c.fformat).bind fun p =>
      rowCastersGo g p.2 rest (acc ++ [p.1])

/-- The `result` property setter: a no-op when the assigned result is
the currently bound one by identity, otherwise rebuild the row-decoder
list.  The source never assigns `_result`, so only `row_casters`
changes (this mirrors the code as written). -/
def Transformer.set_result (g : TypeCastersMap) (t : Transformer)
    (result : PGresult) : Except String Transformer :=
  match t.result with
  | some r =>
    if r.rid = result.rid then .ok t
    else
      (rowCastersGo g t result.cols []).map fun p =>
        { p.2 with row_casters := p.1 }
  | Option.none =>
    (rowCastersGo g t result.cols []).map fun p =>
      { p.2 with row_casters := p.1 }

/-- The values yielded by the `cast_row` generator: for each decoder
(at its column index), the decoded value, or None for absent bytes
without invoking the decoder. -/
def castRowValues (result : PGresult) (n : Nat) :
    List (Bytes → PyVal) → Nat → List PyVal
  | [], _ => []
  | f :: rest, col =>
    (match result.get_value n col with
     | some v => f v
     | Option.none => PyVal.none) :: castRowValues result n rest (col + 1)

/-- `Transformer.cast_row`: assign the result, then decode row `n`
column by column. -/
def Transformer.cast_row (g : TypeCastersMap) (t : Transformer)
    (result : PGresult) (n : Nat) :
    Except String (List PyVal × Transformer) :=
  (t.set_result g result).map fun t2 =>
    (castRowValues result n t2.row_casters 0, t2)

/-- `Transformer.cast`: decode a single value; absent bytes yield
None without resolving or invoking a decoder. -/
def Transformer.cast (g : TypeCastersMap) (t : Transformer)
    (data : Option Bytes) (oid : Nat) (fmt : Format) :
    Except String (PyVal × Transformer) :=
  match data with
  | some d => (t.get_cast_function g oid fmt).map fun p => (p.1 d, p.2)
  | Option.none => .ok (PyVal.none, t)

/-- The fields of `Adapter` base-class instances: the source type and
the solved context. -/
structure AdapterInst where
  src : PyType
  connection : Option BaseConnection
  cursor : Option BaseCursor

/-- `Adapter.__init__`: solve the context once at construction. -/
def Adapter.init (src : PyType) (context : AdaptContext) :
    Except String AdapterInst :=
  (_solve_context context).map fun p => ⟨src, p.1, p.2⟩

/-- The fields of `TypeCaster` base-class instances. -/
structure TypeCasterInst where
  oid : Nat
  connection : Option BaseConnection
  cursor : Option BaseCursor

/-- `TypeCaster.__init__`: solve the context once at construction. -/
def TypeCaster.init (oid : Nat) (context : AdaptContext) :
    Except String TypeCasterInst :=
  (_solve_context context).map fun p => ⟨oid, p.1, p.2⟩

/-! Helper lemmas. -/

/-- Lookup after an overwriting insert: the inserted key returns the
new value, every other key is untouched (dict semantics). -/
theorem lookupKey_insertKey {α β : Type} [DecidableEq α]
    (m : List (α × β)) (k : α) (v : β) (k2 : α) :
    lookupKey (insertKey m k v) k2 =
      if k2 = k then some v else lookupKey m k2 := by
  induction m with
  | nil =>
    simp only [insertKey, lookupKey]
    by_cases h : k = k2
    · subst h; simp
    · rw [if_neg h, if_neg fun h2 => h h2.symm]
  | cons kw rest ih =>
    obtain ⟨k1, w⟩ := kw
    simp only [insertKey]
    by_cases h1 : k1 = k
    · subst h1
      simp only [if_pos rfl, lookupKey]
      by_cases h2 : k1 = k2
      · subst h2; simp
      · rw [if_neg h2, if_neg h2, if_neg fun h3 => h2 h3.symm]
    · rw [if_neg h1]
      simp only [lookupKey]
      by_cases h2 : k1 = k2
      · subst h2
        rw [if_pos rfl, if_neg h1, if_pos rfl]
      · rw [if_neg h2, if_neg h2, ih]

/-- A `castRowValues` list has one entry per decoder. -/
theorem castRowValues_length (r : PGresult) (n : Nat) :
    ∀ (funcs : List (Bytes → PyVal)) (col0 : Nat),
      (castRowValues r n funcs col0).length = funcs.length := by
  intro funcs
  induction funcs with
  | nil => intro col0; rfl
  | cons f rest ih => intro col0; simp [castRowValues, ih (col0 + 1)]

/-- A column whose raw bytes are absent decodes to None. -/
theorem castRowValues_get_none (r : PGresult) (n : Nat) :
    ∀ (funcs : List (Bytes → PyVal)) (col0 col : Nat),
      col < funcs.length → r.get_value n (col0 + col) = Option.none →
      (castRowValues r n funcs col0).get? col = some PyVal.none := by
  intro funcs
  induction funcs with
  | nil => intro col0 col h; exact absurd h (by simp)
  | cons f rest ih =>
    intro col0 col hlt hnone
    cases col with
    | zero =>
      rw [Nat.add_zero] at hnone
      simp [castRowValues, hnone]
    | succ k =>
      have hk : k < rest.length := by simpa using hlt
      have heq : col0 + 1 + k = col0 + (k + 1) := by omega
      have := ih (col0 + 1) k hk (by rw [heq]; exact hnone)
      simpa [castRowValues] using this

/-- The `adapt_sequence` loop adds one output and one oid per pair. -/
theorem adaptSeqGo_length (g : AdaptersMap) :
    ∀ (pairs : List (PyVal × Format)) (t : Transformer)
      (out : List (Option Bytes)) (types : List Nat) r,
      adaptSeqGo g t pairs out types = .ok r →
      r.1.1.length = out.length + pairs.length ∧
      r.1.2.length = types.length + pairs.length := by
  intro pairs
  induction pairs with
  | nil =>
    intro t out types r h
    simp [adaptSeqGo] at h
    simp [← h]
  | cons p rest ih =>
    intro t out types r h
    simp only [adaptSeqGo] at h
    cases ha : t.adapt g p.1 p.2 with
    | error e => rw [ha] at h; exact absurd h (by simp [Except.bind])
    | ok q =>
      rw [ha] at h
      simp only [Except.bind] at h
      obtain ⟨h1, h2⟩ := ih q.2 (out ++ [q.1.outData]) (types ++ [q.1.outOid]) r h
      simp at h1 h2
      constructor <;> simp <;> omega

/-- `get_adapt_function` changes nothing but the ghost event log. -/
theorem get_adapt_function_fields (g : AdaptersMap) (t : Transformer)
    (src : PyType) (fmt : Format) (p : (PyVal → MaybeOid) × Transformer)
    (h : t.get_adapt_function g src fmt = .ok p) :
    p.2.connection = t.connection ∧ p.2.cursor = t.cursor ∧
    p.2.adapt_funcs = t.adapt_funcs ∧ p.2.cast_funcs = t.cast_funcs ∧
    p.2.result = t.result ∧ p.2.row_casters = t.row_casters := by
  unfold Transformer.get_adapt_function at h
  cases hc : lookupKey t.adapt_funcs (src, fmt) with
  | some f =>
    rw [hc] at h
    simp at h
    simp [← h]
  | none =>
    rw [hc] at h
    cases hl : t.lookup_adapter g src fmt with
    | error e => rw [hl] at h; exact absurd h (by simp [Except.map])
    | ok a =>
      rw [hl] at h
      cases a <;> simp [Except.map] at h <;> simp [← h]

/-- `adapt` changes nothing but the ghost event log. -/
theorem adapt_fields (g : AdaptersMap) (t : Transformer) (obj : PyVal)
    (fmt : Format) (p : MaybeOid × Transformer)
    (h : t.adapt g obj fmt = .ok p) :
    p.2.connection = t.connection ∧ p.2.cursor = t.cursor ∧
    p.2.adapt_funcs = t.adapt_funcs := by
  cases obj with
  | none =>
    simp [Transformer.adapt] at h
    simp [← h]
  | int n =>
    simp only [Transformer.adapt] at h
    cases hg : t.get_adapt_function g (PyVal.int n).type fmt with
    | error e => rw [hg] at h; exact absurd h (by simp [Except.map])
    | ok q =>
      rw [hg] at h
      simp [Except.map] at h
      have := get_adapt_function_fields g t _ fmt q hg
      rw [← h]
      exact ⟨this.1, this.2.1, this.2.2.1⟩
  | str c d =>
    simp only [Transformer.adapt] at h
    cases hg : t.get_adapt_function g (PyVal.str c d).type fmt with
    | error e => rw [hg] at h; exact absurd h (by simp [Except.map])
    | ok q =>
      rw [hg] at h
      simp [Except.map] at h
      have := get_adapt_function_fields g t _ fmt q hg
      rw [← h]
      exact ⟨this.1, this.2.1, this.2.2.1⟩
  | bytes b =>
    simp only [Transformer.adapt] at h
    cases hg : t.get_adapt_function g (PyVal.bytes b).type fmt with
    | error e => rw [hg] at h; exact absurd h (by simp [Except.map])
    | ok q =>
      rw [hg] at h
      simp [Except.map] at h
      have := get_adapt_function_fields g t _ fmt q hg
      rw [← h]
      exact ⟨this.1, this.2.1, this.2.2.1⟩

/-- `lookup_adapter` reads only the cursor and connection fields. -/
theorem lookup_adapter_congr (g : AdaptersMap) (t t2 : Transformer)
    (hc : t2.connection = t.connection) (hk : t2.cursor = t.cursor)
    (src : PyType) (fmt : Format) :
    t2.lookup_adapter g src fmt = t.lookup_adapter g src fmt := by
  unfold Transformer.lookup_adapter
  rw [hc, hk]

/-- The returned adapt function depends only on the registries, the
solved context and the cache, not on the ghost state. -/
theorem get_adapt_function_fst_congr (g : AdaptersMap) (t t2 : Transformer)
    (hc : t2.connection = t.connection) (hk : t2.cursor = t.cursor)
    (ha : t2.adapt_funcs = t.adapt_funcs) (src : PyType) (fmt : Format) :
    (t2.get_adapt_function g src fmt).map Prod.fst =
      (t.get_adapt_function g src fmt).map Prod.fst := by
  unfold Transformer.get_adapt_function
  rw [ha, lookup_adapter_congr g t t2 hc hk src fmt, hc]
  cases lookupKey t.adapt_funcs (src, fmt) with
  | some f => rfl
  | none =>
    cases t.lookup_adapter g src fmt with
    | error e => rfl
    | ok a => cases a <;> rfl

/-- `adapt` on a non-None value goes through `get_adapt_function`. -/
theorem adapt_eq_of_ne (g : AdaptersMap) (t : Transformer) (obj : PyVal)
    (fmt : Format) (h : obj ≠ PyVal.none) :
    t.adapt g obj fmt =
      (t.get_adapt_function g obj.type fmt).map fun p => (p.1 obj, p.2) := by
  cases obj
  · exact absurd rfl h
  · rfl
  · rfl
  · rfl

/-- The value produced by `adapt` depends only on the registries, the
solved context and the cache. -/
theorem adapt_fst_congr (g : AdaptersMap) (t t2 : Transformer)
    (hc : t2.connection = t.connection) (hk : t2.cursor = t.cursor)
    (ha : t2.adapt_funcs = t.adapt_funcs) (obj : PyVal) (fmt : Format) :
    (t2.adapt g obj fmt).map Prod.fst = (t.adapt g obj fmt).map Prod.fst := by
  by_cases hno : obj = PyVal.none
  · subst hno; rfl
  · rw [adapt_eq_of_ne g t obj fmt hno, adapt_eq_of_ne g t2 obj fmt hno]
    have hfst := get_adapt_function_fst_congr g t t2 hc hk ha obj.type fmt
    cases hg2 : t2.get_adapt_function g obj.type fmt with
    | error e =>
      rw [hg2] at hfst
      cases hg : t.get_adapt_function g obj.type fmt with
      | error e2 =>
        rw [hg] at hfst
        simp [Except.map] at hfst ⊢
        exact hfst
      | ok q => rw [hg] at hfst; exact absurd hfst (by simp [Except.map])
    | ok q2 =>
      rw [hg2] at hfst
      cases hg : t.get_adapt_function g obj.type fmt with
      | error e2 => rw [hg] at hfst; exact absurd hfst (by simp [Except.map])
      | ok q =>
        rw [hg] at hfst
        simp [Except.map] at hfst ⊢
        rw [hfst]

/-- Pointwise description of encoding a list of (value, format) pairs
with one fixed transformer: the value part of `adapt` for each pair. -/
def adaptsSpec (g : AdaptersMap) (t : Transformer) :
    List (PyVal × Format) → Except String (List MaybeOid)
  | [] => .ok []
  | p :: rest =>
    ((t.adapt g p.1 p.2).map Prod.fst).bind fun d =>
      (adaptsSpec g t rest).map fun ds => d :: ds

/-- The `adapt_sequence` loop produces exactly the destructured
pointwise adapt results, appended to the accumulators. -/
theorem adaptSeqGo_of_adaptsSpec (g : AdaptersMap) (t0 : Transformer) :
    ∀ (pairs : List (PyVal × Format)) (t : Transformer)
      (out : List (Option Bytes)) (types : List Nat) datas,
      t.connection = t0.connection → t.cursor = t0.cursor →
      t.adapt_funcs = t0.adapt_funcs →
      adaptsSpec g t0 pairs = .ok datas →
      (adaptSeqGo g t pairs out types).map Prod.fst =
        .ok (out ++ datas.map MaybeOid.outData,
             types ++ datas.map MaybeOid.outOid) := by
  intro pairs
  induction pairs with
  | nil =>
    intro t out types datas _ _ _ hs
    simp [adaptsSpec] at hs
    simp [adaptSeqGo, Except.map, ← hs]
  | cons p rest ih =>
    intro t out types datas hc hk ha hs
    simp only [adaptsSpec] at hs
    cases h0 : t0.adapt g p.1 p.2 with
    | error e =>
      rw [h0] at hs
      exact absurd hs (by simp [Except.map, Except.bind])
    | ok q0 =>
      rw [h0] at hs
      simp only [Except.map, Except.bind] at hs
      cases hrest : adaptsSpec g t0 rest with
      | error e => rw [hrest] at hs; exact absurd hs (by simp)
      | ok ds =>
        rw [hrest] at hs
        simp at hs
        have hcongr := adapt_fst_congr g t0 t hc hk ha p.1 p.2
        cases ht : t.adapt g p.1 p.2 with
        | error e =>
          rw [ht, h0] at hcongr
          exact absurd hcongr (by simp [Except.map])
        | ok q =>
          rw [ht, h0] at hcongr
          simp [Except.map] at hcongr
          simp only [adaptSeqGo]
          rw [ht]
          simp only [Except.bind]
          obtain ⟨f1, f2, f3⟩ := adapt_fields g t p.1 p.2 q ht
          rw [ih q.2 (out ++ [q.1.outData]) (types ++ [q.1.outOid]) ds
            (f1.trans hc) (f2.trans hk) (f3.trans ha) hrest]
          rw [← hs, hcongr]
          simp

/-- Zipping truncates both lists to the length of the shorter one. -/
theorem zip_take_min {α β : Type} :
    ∀ (xs : List α) (ys : List β),
      xs.zip ys = (xs.take (min xs.length ys.length)).zip
        (ys.take (min xs.length ys.length)) := by
  intro xs
  induction xs with
  | nil => intro ys; simp
  | cons x xs ih =>
    intro ys
    cases ys with
    | nil => simp
    | cons y ys =>
      simp only [List.zip_cons_cons, List.length_cons, Nat.succ_min_succ,
        List.take_succ_cons]
      exact congrArg (List.cons (x, y)) (ih ys)

/-- The codec the unknown-type text decoder uses when constructed by
a given transformer: the bound connection codec, else UTF-8. -/
def transformerCodec (t : Transformer) : Codec :=
  match t.connection with
  | some c => c.info.codec
  | Option.none => Codec.utf8

/-! Concrete fixtures used by witnesses and counterexamples. -/

/-- Sample plain encoder (cursor-scope fixture). -/
def encA : PyVal → MaybeOid := fun _ => MaybeOid.plain (some [65])

/-- Sample plain encoder (connection-scope fixture). -/
def encB : PyVal → MaybeOid := fun _ => MaybeOid.plain (some [66])

/-- Sample plain encoder (global-scope fixture). -/
def encC : PyVal → MaybeOid := fun _ => MaybeOid.plain (some [67])

/-- Sample binary int encoder: one byte plus a binary int oid. -/
def encInt : PyVal → MaybeOid := fun v =>
  match v with
  | .int n => MaybeOid.tagged (some [n.toNat]) 20
  | _ => MaybeOid.plain Option.none

/-- Sample plain decoder. -/
def castA : Bytes → PyVal := fun _ => PyVal.int 7

/-- A stateful decoder class used to observe constructor calls. -/
def probeCaster : CasterClass where
  construct := fun oid _ => fun _ => PyVal.int (Int.ofNat oid)

/-- A stateful encoder class used to observe constructor calls. -/
def probeAdapter : AdapterClass where
  construct := fun _ _ => fun _ => MaybeOid.plain Option.none

/-- The stored conversion a valid (callable or class) adapter
argument corresponds to; none for a non-callable argument. -/
def AdapterArg.asType : AdapterArg → Option AdapterType
  | .func f => some (.func f)
  | .cls c => some (.cls c)
  | .nonCallable _ => Option.none

/-- The stored conversion a valid caster argument corresponds to. -/
def CasterArg.asType : CasterArg → Option TypeCasterType
  | .func f => some (.func f)
  | .cls c => some (.cls c)
  | .nonCallable _ => Option.none

/-- A connection with one connection-scope encoder registered. -/
def connA : BaseConnection :=
  ⟨⟨1, Codec.utf8⟩, [((PyType.intType, Format.text), AdapterType.func encB)], []⟩

/-- A cursor on `connA` with one cursor-scope encoder registered. -/
def curA : BaseCursor :=
  ⟨7, connA, [((PyType.intType, Format.text), AdapterType.func encA)], []⟩

/-- The transformer built from no context. -/
def tNone : Transformer :=
  ⟨Option.none, Option.none, [], [], Option.none, [], []⟩

/-- The transformer built from the cursor context `curA`. -/
def tCurA : Transformer :=
  ⟨some connA, some curA, [], [], Option.none, [], []⟩

/-! Claim theorems. -/

/-- C1: an encoder lookup with key (type, format) consults the cursor
registry, then the connection registry, then the global registry; the
first registry containing the key determines the returned conversion,
and if no registry contains it the lookup fails with a no-adaptation
error naming the type and the format. -/
theorem c1_lookup_adapter_precedence (g : AdaptersMap) (t : Transformer)
    (src : PyType) (fmt : Format) :
    (∀ a, (t.cursor.bind fun cur => lookupKey cur.adapters (src, fmt)) = some a →
        t.lookup_adapter g src fmt = .ok a)
  ∧ (∀ a, (t.cursor.bind fun cur => lookupKey cur.adapters (src, fmt)) = Option.none →
        (t.connection.bind fun conn => lookupKey conn.adapters (src, fmt)) = some a →
        t.lookup_adapter g src fmt = .ok a)
  ∧ (∀ a, (t.cursor.bind fun cur => lookupKey cur.adapters (src, fmt)) = Option.none →
        (t.connection.bind fun conn => lookupKey conn.adapters (src, fmt)) = Option.none →
        lookupKey g (src, fmt) = some a →
        t.lookup_adapter g src fmt = .ok a)
  ∧ ((t.cursor.bind fun cur => lookupKey cur.adapters (src, fmt)) = Option.none →
        (t.connection.bind fun conn => lookupKey conn.adapters (src, fmt)) = Option.none →
        lookupKey g (src, fmt) = Option.none →
        t.lookup_adapter g src fmt =
          .error ("cannot adapt type " ++ typeName src ++ " to format "
                  ++ fmt.name)) := by
  refine ⟨?_, ?_, ?_, ?_⟩
  · intro a h
    unfold Transformer.lookup_adapter
    rw [h]
  · intro a h1 h2
    unfold Transformer.lookup_adapter
    rw [h1, h2]
  · intro a h1 h2 h3
    unfold Transformer.lookup_adapter
    rw [h1, h2, h3]
  · intro h1 h2 h3
    unfold Transformer.lookup_adapter
    rw [h1, h2, h3]

/-- Witness for C1: with the key registered at every scope the
cursor conversion wins; with it registered nowhere the lookup fails
with the message naming the type and the format. -/
theorem c1_lookup_adapter_precedence_witness :
    Transformer.lookup_adapter
        [((PyType.intType, Format.text), AdapterType.func encC)]
        tCurA PyType.intType Format.text = .ok (AdapterType.func encA)
  ∧ Transformer.lookup_adapter [] tNone PyType.strType Format.binary =
      .error "cannot adapt type str to format BINARY" :=
  ⟨(c1_lookup_adapter_precedence
      [((PyType.intType, Format.text), AdapterType.func encC)]
      tCurA PyType.intType Format.text).1 (AdapterType.func encA) rfl,
   (c1_lookup_adapter_precedence [] tNone PyType.strType Format.binary).2.2.2
      rfl rfl rfl⟩

/-- C2: a decoder lookup whose key is in no registry does not raise:
it returns the global fallback registered under the unknown sentinel
for that format, so a text column decodes to a string under the
connection codec (UTF-8 without a connection) and a binary column
yields the raw bytes unchanged. -/
theorem c2_unknown_fallback (g : TypeCastersMap) (t : Transformer)
    (oid : Nat) (data : Bytes)
    (hcurT : (t.cursor.bind fun cur => lookupKey cur.casters (oid, Format.text)) = Option.none)
    (hconT : (t.connection.bind fun conn => lookupKey conn.casters (oid, Format.text)) = Option.none)
    (hgT : lookupKey g (oid, Format.text) = Option.none)
    (hcurB : (t.cursor.bind fun cur => lookupKey cur.casters (oid, Format.binary)) = Option.none)
    (hconB : (t.connection.bind fun conn => lookupKey conn.casters (oid, Format.binary)) = Option.none)
    (hgB : lookupKey g (oid, Format.binary) = Option.none)
    (huT : lookupKey g (INVALID_OID, Format.text) = some (TypeCasterType.cls UnknownCaster))
    (huB : lookupKey g (INVALID_OID, Format.binary) = some (TypeCasterType.func cast_unknown))
    (hfT : lookupKey t.cast_funcs (oid, Format.text) = Option.none)
    (hfB : lookupKey t.cast_funcs (oid, Format.binary) = Option.none) :
    t.lookup_caster g oid Format.text = .ok (TypeCasterType.cls UnknownCaster)
  ∧ t.lookup_caster g oid Format.binary = .ok (TypeCasterType.func cast_unknown)
  ∧ (t.cast g (some data) oid Format.text).map Prod.fst =
      .ok (PyVal.str (transformerCodec t) data)
  ∧ (t.cast g (some data) oid Format.binary).map Prod.fst =
      .ok (PyVal.bytes data) := by
  have lT : t.lookup_caster g oid Format.text =
      .ok (TypeCasterType.cls UnknownCaster) := by
    unfold Transformer.lookup_caster
    rw [hcurT, hconT, hgT, huT]
  have lB : t.lookup_caster g oid Format.binary =
      .ok (TypeCasterType.func cast_unknown) := by
    unfold Transformer.lookup_caster
    rw [hcurB, hconB, hgB, huB]
  refine ⟨lT, lB, ?_, ?_⟩
  · unfold Transformer.cast Transformer.get_cast_function
    rw [hfT, lT]
    rcases hconn : t.connection with _ | c <;>
      simp [Except.map, UnknownCaster, ctxRefOfConn, CtxRef.solvedConn,
        transformerCodec, hconn]
  · unfold Transformer.cast Transformer.get_cast_function
    rw [hfB, lB]
    simp [Except.map, cast_unknown]

/-- Witness for C2: with the module-level fallback registrations and
no registration for oid 99, a text value decodes to a UTF-8 string
and a binary value to the raw bytes. -/
theorem c2_unknown_fallback_witness :
    (tNone.cast initialCasterGlobals (some [104, 105]) 99 Format.text).map Prod.fst =
      .ok (PyVal.str Codec.utf8 [104, 105])
  ∧ (tNone.cast initialCasterGlobals (some [104, 105]) 99 Format.binary).map Prod.fst =
      .ok (PyVal.bytes [104, 105]) :=
  ⟨(c2_unknown_fallback initialCasterGlobals tNone 99 [104, 105]
      rfl rfl rfl rfl rfl rfl rfl rfl rfl rfl).2.2.1,
   (c2_unknown_fallback initialCasterGlobals tNone 99 [104, 105]
      rfl rfl rfl rfl rfl rfl rfl rfl rfl rfl).2.2.2⟩

/-- C5: encoding None yields (None, TEXT_OID) for any format without
touching any registry; decoding absent bytes yields None without
invoking a decoder, both for a single value and for a row column. -/
theorem c5_null_values (g : AdaptersMap) (gc : TypeCastersMap)
    (t : Transformer) (fmt : Format) (oid : Nat) :
    t.adapt g PyVal.none fmt = .ok (MaybeOid.tagged Option.none TEXT_OID, t)
  ∧ t.cast gc Option.none oid fmt = .ok (PyVal.none, t)
  ∧ (∀ result n vals t2, t.cast_row gc result n = .ok (vals, t2) →
      ∀ col, col < vals.length → result.get_value n col = Option.none →
        vals.get? col = some PyVal.none) := by
  refine ⟨rfl, rfl, ?_⟩
  intro result n vals t2 h col hlt hnone
  unfold Transformer.cast_row at h
  cases hs : t.set_result gc result with
  | error e => rw [hs] at h; exact absurd h (by simp [Except.map])
  | ok t3 =>
    rw [hs] at h
    simp [Except.map] at h
    obtain ⟨h1, _⟩ := h
    rw [← h1] at hlt ⊢
    rw [castRowValues_length result n t3.row_casters 0] at hlt
    exact castRowValues_get_none result n t3.row_casters 0 col hlt
      (by rw [Nat.zero_add]; exact hnone)

/-- Witness for C5: a one-column row whose value is absent decodes to
None. -/
theorem c5_null_values_witness :
    ([PyVal.none] : List PyVal).get? 0 = some PyVal.none :=
  (c5_null_values [] [((23, Format.text), TypeCasterType.func castA)]
      tNone Format.text 23).2.2
    ⟨1, [⟨23, Format.text⟩], [[Option.none]]⟩ 0 [PyVal.none]
    { tNone with row_casters := [castA] } rfl 0 (by decide) rfl

/-- C8: context solving maps none to (none, none), a connection to
(it, none), a cursor to (its owning connection, it), raises TypeError
on anything else, and is performed once at construction of an
Adapter, TypeCaster or Transformer, whose stored fields agree with
it. -/
theorem c8_context_solving (c : BaseConnection) (cur : BaseCursor)
    (d : String) (ctx : AdaptContext) :
    _solve_context AdaptContext.none = .ok (Option.none, Option.none)
  ∧ _solve_context (AdaptContext.conn c) = .ok (some c, Option.none)
  ∧ _solve_context (AdaptContext.cursor cur) = .ok (some cur.conn, some cur)
  ∧ _solve_context (AdaptContext.other d) =
      .error ("the context should be a connection or cursor, got " ++ d)
  ∧ (∀ t, Transformer.init ctx = .ok t →
        _solve_context ctx = .ok (t.connection, t.cursor))
  ∧ (∀ src inst, Adapter.init src ctx = .ok inst →
        _solve_context ctx = .ok (inst.connection, inst.cursor))
  ∧ (∀ oid inst, TypeCaster.init oid ctx = .ok inst →
        _solve_context ctx = .ok (inst.connection, inst.cursor))
  ∧ Transformer.init (AdaptContext.other d) =
      .error ("the context should be a connection or cursor, got " ++ d) := by
  refine ⟨rfl, rfl, rfl, rfl, ?_, ?_, ?_, rfl⟩
  · intro t h
    unfold Transformer.init at h
    cases hs : _solve_context ctx with
    | error e => rw [hs] at h; exact absurd h (by simp [Except.map])
    | ok pr =>
      rw [hs] at h
      simp [Except.map] at h
      rw [← h]
  · intro src inst h
    unfold Adapter.init at h
    cases hs : _solve_context ctx with
    | error e => rw [hs] at h; exact absurd h (by simp [Except.map])
    | ok pr =>
      rw [hs] at h
      simp [Except.map] at h
      rw [← h]
  · intro oid inst h
    unfold TypeCaster.init at h
    cases hs : _solve_context ctx with
    | error e => rw [hs] at h; exact absurd h (by simp [Except.map])
    | ok pr =>
      rw [hs] at h
      simp [Except.map] at h
      rw [← h]

/-- Witness for C8: the transformer built from no context stores the
solved pair (none, none). -/
theorem c8_context_solving_witness :
    _solve_context AdaptContext.none = .ok (tNone.connection, tNone.cursor) :=
  (c8_context_solving connA curA "dict" AdaptContext.none).2.2.2.2.1 tNone rfl

/-- C9: a stateful conversion is always constructed with the
transformer's connection (or none) as the context — the argument can
never be a cursor reference, even for a transformer built from a
cursor, whose constructor context is the cursor's owning connection. -/
theorem c9_stateful_context (g : AdaptersMap) (gc : TypeCastersMap)
    (t : Transformer) (src : PyType) (oid : Nat) (fmt : Format) :
    (∀ f t2, t.get_adapt_function g src fmt = .ok (f, t2) →
        t2.events = t.events ∨
        t2.events = t.events ++
          [ConstructEvent.adapter src fmt (ctxRefOfConn t.connection)])
  ∧ (∀ f t2, t.get_cast_function gc oid fmt = .ok (f, t2) →
        t2.events = t.events ∨
        t2.events = t.events ++
          [ConstructEvent.caster oid fmt (ctxRefOfConn t.connection)])
  ∧ (∀ (c : Option BaseConnection) (curId : Nat) (i : ConnInfo),
        ctxRefOfConn c ≠ CtxRef.cursor curId i)
  ∧ (∀ cur t0, Transformer.init (AdaptContext.cursor cur) = .ok t0 →
        ctxRefOfConn t0.connection = CtxRef.conn cur.conn.info) := by
  refine ⟨?_, ?_, ?_, ?_⟩
  · intro f t2 h
    unfold Transformer.get_adapt_function at h
    cases hc : lookupKey t.adapt_funcs (src, fmt) with
    | some f2 =>
      rw [hc] at h
      simp at h
      left
      rw [← h.2]
    | none =>
      rw [hc] at h
      cases hl : t.lookup_adapter g src fmt with
      | error e => rw [hl] at h; exact absurd h (by simp [Except.map])
      | ok a =>
        rw [hl] at h
        cases a with
        | func f3 =>
          simp [Except.map] at h
          left
          rw [← h.2]
        | cls c2 =>
          simp [Except.map] at h
          right
          rw [← h.2]
  · intro f t2 h
    unfold Transformer.get_cast_function at h
    cases hc : lookupKey t.cast_funcs (oid, fmt) with
    | some f2 =>
      rw [hc] at h
      simp at h
      left
      rw [← h.2]
    | none =>
      rw [hc] at h
      cases hl : t.lookup_caster gc oid fmt with
      | error e => rw [hl] at h; exact absurd h (by simp [Except.map])
      | ok a =>
        rw [hl] at h
        cases a with
        | func f3 =>
          simp [Except.map] at h
          left
          rw [← h.2]
        | cls c2 =>
          simp [Except.map] at h
          right
          rw [← h.2]
  · intro c curId i
    cases c <;> simp [ctxRefOfConn]
  · intro cur t0 h
    simp [Transformer.init, _solve_context, Except.map] at h
    rw [← h]
    rfl

/-- Witness for C9: the transformer built from the cursor fixture
passes its owning connection as the constructor context. -/
theorem c9_stateful_context_witness :
    ctxRefOfConn tCurA.connection = CtxRef.conn connA.info :=
  (c9_stateful_context [] [] tNone PyType.intType 0 Format.text).2.2.2
    curA tCurA rfl

/-- C10: with values and formats of different lengths,
adapt_sequence silently processes only the first
min(len(values), len(formats)) pairs, and on success both returned
lists have exactly that length. -/
theorem c10_adapt_sequence_truncation (g : AdaptersMap) (t : Transformer)
    (objs : List PyVal) (fmts : List Format) :
    t.adapt_sequence g objs fmts =
      t.adapt_sequence g (objs.take (min objs.length fmts.length))
        (fmts.take (min objs.length fmts.length))
  ∧ (∀ out types t2, t.adapt_sequence g objs fmts = .ok ((out, types), t2) →
      out.length = min objs.length fmts.length ∧
      types.length = min objs.length fmts.length) := by
  constructor
  · unfold Transformer.adapt_sequence
    rw [← zip_take_min]
  · intro out types t2 h
    have := adaptSeqGo_length g (objs.zip fmts) t [] [] ((out, types), t2) h
    simpa [List.length_zip] using this

/-- Witness for C10: three values against one format produce
one-element outputs. -/
theorem c10_adapt_sequence_truncation_witness :
    ([Option.none] : List (Option Bytes)).length = min 3 1 ∧
    ([TEXT_OID] : List Nat).length = min 3 1 :=
  (c10_adapt_sequence_truncation [] tNone
      [PyVal.none, PyVal.none, PyVal.none] [Format.text]).2
    [Option.none] [TEXT_OID] tNone rfl

/-- C7: adapt_sequence returns two parallel lists, per value the
bytes (or None) from the resolved encoder and the wire-type oid it
returned, with TEXT_OID substituted when the encoder returned no oid
or the value was None. -/
theorem c7_adapt_sequence_parallel (g : AdaptersMap) (t : Transformer)
    (objs : List PyVal) (fmts : List Format) (datas : List MaybeOid)
    (h : adaptsSpec g t (objs.zip fmts) = .ok datas) :
    (t.adapt_sequence g objs fmts).map Prod.fst =
      .ok (datas.map MaybeOid.outData, datas.map MaybeOid.outOid) := by
  have := adaptSeqGo_of_adaptsSpec g t (objs.zip fmts) t [] [] datas
    rfl rfl rfl h
  simpa [Transformer.adapt_sequence] using this

/-- Witness for C7: after registering a binary int encoder globally,
encoding [5, None] against [Binary, Text] yields the encoder's bytes
and oid for 5 and (None, TEXT_OID) for None. -/
theorem c7_adapt_sequence_parallel_witness :
    (Transformer.adapt_sequence
        (Adapter.register_binary [] (RegKeyArg.type PyType.intType)
          (AdapterArg.func encInt) AdaptContext.none).2.1
        tNone [PyVal.int 5, PyVal.none]
        [Format.binary, Format.text]).map Prod.fst =
      .ok ([some [5], Option.none], [20, TEXT_OID]) :=
  c7_adapt_sequence_parallel
    (Adapter.register_binary [] (RegKeyArg.type PyType.intType)
      (AdapterArg.func encInt) AdaptContext.none).2.1
    tNone [PyVal.int 5, PyVal.none] [Format.binary, Format.text]
    [MaybeOid.tagged (some [5]) 20, MaybeOid.tagged Option.none TEXT_OID]
    rfl

/-- C6: a registration call with a key of the wrong kind, a scope
that is not none/Connection/Cursor, or a non-callable non-class
conversion raises a TypeError and leaves every registry unchanged;
a valid call stores the conversion under (key, format) in the
selected scope's registry with overwrite semantics. -/
theorem c6_register_validation (ga : AdaptersMap) (gc : TypeCastersMap)
    (context : AdaptContext) (fmt : Format)
    (hctx : ∀ d, context ≠ AdaptContext.other d) :
    (∀ n a, Adapter.register ga (RegKeyArg.int n) a context fmt =
        (.error ("adapters should be registered on classes, got "
                 ++ toString n ++ " instead"), ga, context))
  ∧ (∀ d a, Adapter.register ga (RegKeyArg.other d) a context fmt =
        (.error ("adapters should be registered on classes, got "
                 ++ d ++ " instead"), ga, context))
  ∧ (∀ tp cst, TypeCaster.register gc (RegKeyArg.type tp) cst context fmt =
        (.error ("typecasters should be registered on oid, got "
                 ++ typeName tp ++ " instead"), gc, context))
  ∧ (∀ d cst, TypeCaster.register gc (RegKeyArg.other d) cst context fmt =
        (.error ("typecasters should be registered on oid, got "
                 ++ d ++ " instead"), gc, context))
  ∧ (∀ tp a d, Adapter.register ga (RegKeyArg.type tp) a
        (AdaptContext.other d) fmt =
        (.error ("the context should be a connection or cursor, got " ++ d),
         ga, AdaptContext.other d))
  ∧ (∀ n cst d, TypeCaster.register gc (RegKeyArg.int n) cst
        (AdaptContext.other d) fmt =
        (.error ("the context should be a connection or cursor, got " ++ d),
         gc, AdaptContext.other d))
  ∧ (∀ tp d, Adapter.register ga (RegKeyArg.type tp)
        (AdapterArg.nonCallable d) context fmt =
        (.error ("adapters should be callable or Adapter subclasses, got "
                 ++ d ++ " instead"), ga, context))
  ∧ (∀ n d, TypeCaster.register gc (RegKeyArg.int n)
        (CasterArg.nonCallable d) context fmt =
        (.error ("adapters should be callable or TypeCaster subclasses, got "
                 ++ d ++ " instead"), gc, context))
  ∧ (∀ tp a v, AdapterArg.asType a = some v →
        Adapter.register ga (RegKeyArg.type tp) a AdaptContext.none fmt =
          (.ok v, insertKey ga (tp, fmt) v, AdaptContext.none))
  ∧ (∀ tp a v c, AdapterArg.asType a = some v →
        Adapter.register ga (RegKeyArg.type tp) a (AdaptContext.conn c) fmt =
          (.ok v, ga, AdaptContext.conn
            { c with adapters := insertKey c.adapters (tp, fmt) v }))
  ∧ (∀ tp a v cur, AdapterArg.asType a = some v →
        Adapter.register ga (RegKeyArg.type tp) a (AdaptContext.cursor cur) fmt =
          (.ok v, ga, AdaptContext.cursor
            { cur with adapters := insertKey cur.adapters (tp, fmt) v }))
  ∧ (∀ n cst v, CasterArg.asType cst = some v →
        TypeCaster.register gc (RegKeyArg.int n) cst AdaptContext.none fmt =
          (.ok v, insertKey gc (n, fmt) v, AdaptContext.none))
  ∧ (∀ n cst v c, CasterArg.asType cst = some v →
        TypeCaster.register gc (RegKeyArg.int n) cst (AdaptContext.conn c) fmt =
          (.ok v, gc, AdaptContext.conn
            { c with casters := insertKey c.casters (n, fmt) v }))
  ∧ (∀ n cst v cur, CasterArg.asType cst = some v →
        TypeCaster.register gc (RegKeyArg.int n) cst (AdaptContext.cursor cur) fmt =
          (.ok v, gc, AdaptContext.cursor
            { cur with casters := insertKey cur.casters (n, fmt) v }))
  ∧ (∀ (m : AdaptersMap) k v k2, lookupKey (insertKey m k v) k2 =
        if k2 = k then some v else lookupKey m k2) := by
  refine ⟨?_, ?_, ?_, ?_, ?_, ?_, ?_, ?_, ?_, ?_, ?_, ?_, ?_, ?_, ?_⟩
  · intro n a; rfl
  · intro d a; rfl
  · intro tp cst; rfl
  · intro d cst; rfl
  · intro tp a d; rfl
  · intro n cst d; rfl
  · intro tp d
    cases context with
    | other d2 => exact absurd rfl (hctx d2)
    | none => rfl
    | conn c => rfl
    | cursor cur => rfl
  · intro n d
    cases context with
    | other d2 => exact absurd rfl (hctx d2)
    | none => rfl
    | conn c => rfl
    | cursor cur => rfl
  · intro tp a v hv
    cases a with
    | func f => simp [AdapterArg.asType] at hv; subst hv; rfl
    | cls c => simp [AdapterArg.asType] at hv; subst hv; rfl
    | nonCallable d => exact absurd hv (by simp [AdapterArg.asType])
  · intro tp a v c hv
    cases a with
    | func f => simp [AdapterArg.asType] at hv; subst hv; rfl
    | cls cl => simp [AdapterArg.asType] at hv; subst hv; rfl
    | nonCallable d => exact absurd hv (by simp [AdapterArg.asType])
  · intro tp a v cur hv
    cases a with
    | func f => simp [AdapterArg.asType] at hv; subst hv; rfl
    | cls cl => simp [AdapterArg.asType] at hv; subst hv; rfl
    | nonCallable d => exact absurd hv (by simp [AdapterArg.asType])
  · intro n cst v hv
    cases cst with
    | func f => simp [CasterArg.asType] at hv; subst hv; rfl
    | cls cl => simp [CasterArg.asType] at hv; subst hv; rfl
    | nonCallable d => exact absurd hv (by simp [CasterArg.asType])
  · intro n cst v c hv
    cases cst with
    | func f => simp [CasterArg.asType] at hv; subst hv; rfl
    | cls cl => simp [CasterArg.asType] at hv; subst hv; rfl
    | nonCallable d => exact absurd hv (by simp [CasterArg.asType])
  · intro n cst v cur hv
    cases cst with
    | func f => simp [CasterArg.asType] at hv; subst hv; rfl
    | cls cl => simp [CasterArg.asType] at hv; subst hv; rfl
    | nonCallable d => exact absurd hv (by simp [CasterArg.asType])
  · intro m k v k2
    exact lookupKey_insertKey m k v k2

/-- Witness for C6: an integer key is rejected with the registries
untouched; a valid global registration stores the conversion. -/
theorem c6_register_validation_witness :
    Adapter.register [] (RegKeyArg.int 5) (AdapterArg.func encA)
        AdaptContext.none Format.text =
      (.error "adapters should be registered on classes, got 5 instead",
       [], AdaptContext.none)
  ∧ Adapter.register [] (RegKeyArg.type PyType.intType) (AdapterArg.func encA)
        AdaptContext.none Format.text =
      (.ok (AdapterType.func encA),
       [((PyType.intType, Format.text), AdapterType.func encA)],
       AdaptContext.none) :=
  ⟨(c6_register_validation [] [] AdaptContext.none Format.text
      (by intro d h; exact AdaptContext.noConfusion h)).1 5 (AdapterArg.func encA),
   (c6_register_validation [] [] AdaptContext.none Format.text
      (by intro d h; exact AdaptContext.noConfusion h)).2.2.2.2.2.2.2.2.1
     PyType.intType (AdapterArg.func encA) (AdapterType.func encA) rfl⟩

/-- C3: refuted on the code — the resolved-function caches are never
populated. With a stateful decoder class registered globally for
(23, TEXT), after a first get_cast_function call the cache is still
empty, and a second call on the same key instantiates the class a
second time (two construction events); the adapt side behaves the
same. The claim requires the first call to cache the callable and
the constructor to run at most once per key. -/
theorem c3_cache_never_populated :
    ((tNone.get_cast_function
        [((23, Format.text), TypeCasterType.cls probeCaster)]
        23 Format.text).bind fun p1 =>
      (p1.2.get_cast_function
        [((23, Format.text), TypeCasterType.cls probeCaster)]
        23 Format.text).map fun p2 =>
        (p1.2.cast_funcs.length, p2.2.events.length)) = .ok (0, 2)
  ∧ ((tNone.get_adapt_function
        [((PyType.intType, Format.text), AdapterType.cls probeAdapter)]
        PyType.intType Format.text).bind fun p1 =>
      (p1.2.get_adapt_function
        [((PyType.intType, Format.text), AdapterType.cls probeAdapter)]
        PyType.intType Format.text).map fun p2 =>
        (p1.2.adapt_funcs.length, p2.2.events.length)) = .ok (0, 2) :=
  ⟨rfl, rfl⟩

/-- C4: refuted in part on the code — binding a one-column result
does produce a one-entry row-decoder list, but the bound-result
field is never assigned, so the identity guard never fires:
rebinding the very same result object re-resolves the columns and
re-instantiates the stateful decoder (two construction events after
two binds of one object), and the transformer still records no
bound result. The claim requires the second bind to be a no-op. -/
theorem c4_rebind_reresolves :
    ((tNone.set_result [((23, Format.text), TypeCasterType.cls probeCaster)]
        ⟨5, [⟨23, Format.text⟩], [[some [49]]]⟩).bind fun t1 =>
      (t1.set_result [((23, Format.text), TypeCasterType.cls probeCaster)]
        ⟨5, [⟨23, Format.text⟩], [[some [49]]]⟩).map fun t2 =>
        (t1.result.isSome, t1.row_casters.length, t2.events.length))
    = .ok (false, 1, 2) := rfl

end Psycopg3
